import Mathlib

/-!
Shallow embedding of the hyper-stub connector (src/connector.rs, src/lib.rs,
src/never.rs).  Rust futures (futures 0.1) are embedded as explicit state
machines: a poll step maps a future state to a new state and a poll result.
Side effects of the connector (invoking the handler factory, creating a
memsocket duplex pair, spawning a background server task) are made explicit
by threading a `World` record through the effectful operations.
-/

namespace HyperStub

/-- Bytes of an HTTP message body. -/
abbrev Bytes := List Nat

/-- The observable pieces of a request URI (hyper's `Uri`): the authority's
host (used by the client stack to derive a Host header) and the query
string. -/
structure Uri where
  host : String
  query : String
  deriving DecidableEq, Repr

/-- An HTTP request (hyper's `Request<Body>`): URI, header list, body bytes. -/
structure Request where
  uri : Uri
  headers : List (String × String)
  body : Bytes
  deriving DecidableEq, Repr

/-- An HTTP response (hyper's `Response<Body>`): body bytes. -/
structure Response where
  body : Bytes
  deriving DecidableEq, Repr

/-- hyper's `Connected` metadata attached to an established transport. -/
structure Connected where
  is_proxy : Bool
  deriving DecidableEq, Repr

/-- `Connected::new()`: fresh metadata, proxy flag off. -/
def Connected.new : Connected := ⟨false⟩

/-- `Connected::new().proxy(b)`: set the proxy flag. -/
def Connected.proxy (c : Connected) (b : Bool) : Connected := { c with is_proxy := b }

/-- hyper's `Destination`: the scheme/host/port of a connection attempt,
embedded by its URI. `Connector::connect` receives one and ignores it. -/
structure Destination where
  uri : Uri
  deriving DecidableEq, Repr

/-- hyper's `Http` protocol-engine handle (`Http::new()` in
`Connector::new`).  Its configuration is opaque to this crate. -/
structure Http where
  deriving DecidableEq, Repr

/-- `Http::new()`. -/
def Http.new : Http := {}

/-- The result of one poll of a futures-0.1 future
(`Poll<Item, Error> = Result<Async<Item>, Error>`), together with the
possibility that the poll itself panicked (unwound). -/
inductive PollRes (α ε : Type) where
  | notReady
  | ready (a : α)
  | error (e : ε)
  | panicked (msg : String)
  deriving DecidableEq, Repr

/-- A futures-0.1 future as a state machine: one poll step maps a state to
the successor state and a poll result. -/
structure FutureSM (σ α ε : Type) where
  step : σ → σ × PollRes α ε

/-- futures' `FutureResult<T, E>` (the future returned by `future::ok` /
`future::err`): its state is `inner : Option<Result<T, E>>`. -/
def FutureResult (α ε : Type) : Type := Option (Except ε α)

/-- `future::ok(a)`: a `FutureResult` that resolves immediately with `Ok(a)`. -/
def future.ok (a : α) : FutureResult α ε := some (Except.ok a)

/-- `future::err(e)`: a `FutureResult` that resolves immediately with `Err(e)`. -/
def future.err (e : ε) : FutureResult α ε := some (Except.error e)

/-- The poll step of `FutureResult`: take the stored result and return it as
ready or as an error; polling again after completion panics (the source
expects on `Option::take`, "cannot poll Result twice"). -/
def futureResultSM : FutureSM (FutureResult α ε) α ε :=
  ⟨fun st =>
    match st with
    | some (Except.ok a) => (none, PollRes.ready a)
    | some (Except.error e) => (none, PollRes.error e)
    | none => (none, PollRes.panicked "cannot poll Result twice")⟩

/-- Identifier of one endpoint of a memsocket duplex pair. -/
abbrev SocketId := Nat

/-- A background server task spawned by the connector: it owns the
server-side transport half and the instantiated service (handler). -/
structure SpawnedTask (S : Type) where
  serverIo : SocketId
  service : S
  deriving DecidableEq, Repr

/-- The effect world threaded through the connector's operations.  It records
each invocation of the handler factory (`factoryCalls`), the allocator for
fresh socket endpoints (`nextSocketId`), how many duplex pairs
`memsocket::unbounded` has produced (`pairsCreated`), and the spawned
background server tasks, most recently spawned first (`tasks`). -/
structure World (S : Type) where
  factoryCalls : Nat
  nextSocketId : Nat
  pairsCreated : Nat
  tasks : List (SpawnedTask S)
  deriving DecidableEq, Repr

/-- An initial world: no factory calls, no pairs, no tasks. -/
def World.init : World S := ⟨0, 0, 0, []⟩

/-- `memsocket::unbounded()`: create a fresh linked duplex pair
`(client_io, server_io)`; writes to one half are readable from the other. -/
def memsocket.unbounded (w : World S) : (SocketId × SocketId) × World S :=
  ((w.nextSocketId, w.nextSocketId + 1),
   { w with nextSocketId := w.nextSocketId + 2, pairsCreated := w.pairsCreated + 1 })

/-- `tokio::spawn(task)`: detach a background task onto the scheduler. -/
def tokio.spawn (t : SpawnedTask S) (w : World S) : World S :=
  { w with tasks := t :: w.tasks }

/-- `ConnectorConnectFuture<ServiceFuture>`: the connection-instantiation
future.  It holds the shared `Http` handle and the factory's service future
(here: the future's step function and its current state). -/
structure ConnectorConnectFuture (σ S E : Type) where
  server : Http
  sm : FutureSM σ S E
  service_state : σ

/-- `ConnectorConnectFuture::poll`: poll the inner service future; map a
pending/error/panic outcome straight through without touching the world; on
`Ready(service)` create the duplex pair, spawn the background server task
with the server half and the service, and resolve with the client half and
`Connected::new().proxy(true)`. -/
def ConnectorConnectFuture.poll (f : ConnectorConnectFuture σ S E) (w : World S) :
    ConnectorConnectFuture σ S E × World S × PollRes (SocketId × Connected) E :=
  match f.sm.step f.service_state with
  | (s', PollRes.notReady) => ({ f with service_state := s' }, w, PollRes.notReady)
  | (s', PollRes.error e) => ({ f with service_state := s' }, w, PollRes.error e)
  | (s', PollRes.panicked m) => ({ f with service_state := s' }, w, PollRes.panicked m)
  | (s', PollRes.ready service) =>
      let pr := memsocket.unbounded w
      let w2 := tokio.spawn ⟨pr.1.2, service⟩ pr.2
      ({ f with service_state := s' }, w2,
       PollRes.ready (pr.1.1, Connected.new.proxy true))

/-- hyper's `NewService` (the handler factory): `new_service()` produces one
service future per connection attempt.  `init` builds the future's initial
state; `sm` is the future's poll step. -/
structure NewService (σ S E : Type) where
  sm : FutureSM σ S E
  init : Unit → σ

/-- Invoking the factory: `new_service.new_service()`.  The world registers
the invocation in `factoryCalls`, so that when the factory runs is
observable; the returned value is the initial state of the service future. -/
def NewService.new_service (n : NewService σ S E) (w : World S) : σ × World S :=
  (n.init (), { w with factoryCalls := w.factoryCalls + 1 })

/-- `Connector<N>`: the shared handler factory and the shared `Http` handle. -/
structure Connector (σ S E : Type) where
  new_service : NewService σ S E
  server : Http

/-- `Connector::new(new_service)`. -/
def Connector.new (n : NewService σ S E) : Connector σ S E :=
  { new_service := n, server := Http.new }

/-- `Connector::connect(&self, _: Destination)`: ignore the destination,
invoke the factory's `new_service()`, and wrap the obtained service future
together with the cloned `Http` handle into a `ConnectorConnectFuture`. -/
def Connector.connect (c : Connector σ S E) (_dest : Destination) (w : World S) :
    ConnectorConnectFuture σ S E × World S :=
  let sw := c.new_service.new_service w
  ({ server := c.server, sm := c.new_service.sm, service_state := sw.1 }, sw.2)

/-- Drive a connection-instantiation future the way a well-behaved executor
does: poll repeatedly while it is pending, and stop at the first poll that
resolves (ready, error or panic), never polling a resolved future again.
`PollRes.notReady` as the overall result means the fuel ran out while the
future was still pending. -/
def pollDriver (fuel : Nat) (f : ConnectorConnectFuture σ S E) (w : World S) :
    ConnectorConnectFuture σ S E × World S × PollRes (SocketId × Connected) E :=
  match fuel with
  | 0 => (f, w, PollRes.notReady)
  | Nat.succ n =>
      match f.poll w with
      | (f', w', PollRes.notReady) => pollDriver n f' w'
      | r => r

/-- Outcome of the protocol engine's serve loop over one connection
(external collaborator): either the transport closed cleanly, or the engine
or handler surfaced an error. -/
inductive ServeOutcome (ε : Type) where
  | done
  | failed (e : ε)
  deriving DecidableEq, Repr

/-- Final state of a background server task. -/
inductive TaskOutcome (ε : Type) where
  | finished
  | panicked (e : ε)
  deriving DecidableEq, Repr

/-- The spawned future is `serve_connection(server_io, service)` post-composed
with `map_err` that panics with a diagnostic of the error: a clean close
finishes the task, any serve error aborts the task with that error as the
panic payload. -/
def serverTaskOutcome (out : ServeOutcome ε) : TaskOutcome ε :=
  match out with
  | ServeOutcome.done => TaskOutcome.finished
  | ServeOutcome.failed e => TaskOutcome.panicked e

/-- The crate's uninhabited error type (src/never.rs): `pub enum Never {}`. -/
inductive Never : Type

/-- Eliminate an (impossible) value of `Never` into anything. -/
def Never.elim {α : Sort u} : Never → α := fun n => nomatch n

/-- The body of `impl Display for Never`: declared `unreachable!()`, which the
emptiness of `Never` makes well-typed. -/
def Never.fmt : Never → String := fun n => n.elim

/-- The body of `Error::description` for `Never`: declared `unreachable!()`. -/
def Never.description : Never → String := fun n => n.elim

instance : DecidableEq Never := fun a _ => a.elim

/-- A hyper `Service` with response-error type `ε`: `call` maps a request to
a response future (the library instantiates these futures with
`FutureResult`). -/
structure Service (ε : Type) where
  call : Request → FutureResult Response ε

/-- hyper's `service_fn(f)`: the service whose `call` is `f`. -/
def service_fn (f : Request → FutureResult Response ε) : Service ε :=
  ⟨f⟩

/-- A hyper `Client` over our connector: the `set_host` builder flag and the
connector it was built with. -/
structure Client (σ S E : Type) where
  set_host : Bool
  connector : Connector σ S E

/-- Check whether a header list carries a header of the given name. -/
def hasHeader (hs : List (String × String)) (name : String) : Bool :=
  hs.any (fun p => p.1 == name)

/-- Modelled from the spec: the client stack's automatic Host handling
(hyper `Client` internals, an external collaborator).  With `set_host(true)`
the client inserts a Host header derived from the request URI's host into
each outgoing request that does not already carry one. -/
def autoHost (r : Request) : Request :=
  if hasHeader r.headers "Host" then r
  else { r with headers := ("Host", r.uri.host) :: r.headers }

/-- What the caller of `client.request(..)` observes for one request. -/
inductive ClientOutcome (E : Type) where
  | response (resp : Response)
  | connectError (e : E)
  | streamClosed
  | pending
  | panicked (msg : String)
  deriving DecidableEq, Repr

/-- Modelled from the spec: one request through the external hyper client
stack and protocol engine (excluded collaborators, assumed provided and
faithful).  The client stack asks the connector for a transport and drives
the connection-instantiation future; a factory error is surfaced to the
caller carrying that error; on success the engine writes the request (after
the `set_host` Host insertion) over the client half, the background server
task's engine parses it, invokes the service it owns, and the response
travels back byte-for-byte.  A serving-side error aborts the task, which the
client observes as an unexpected stream termination. -/
def Client.request (fuel : Nat) (c : Client σ (Service RE) E) (r : Request)
    (w : World (Service RE)) : ClientOutcome E × World (Service RE) :=
  let cw := c.connector.connect ⟨r.uri⟩ w
  let pd := pollDriver fuel cw.1 cw.2
  match pd.2.2 with
  | PollRes.ready (clientIo, _meta) =>
      match pd.2.1.tasks.find? (fun t => t.serverIo == clientIo + 1) with
      | some t =>
          let delivered := if c.set_host then autoHost r else r
          match t.service.call delivered with
          | some (Except.ok resp) => (ClientOutcome.response resp, pd.2.1)
          | some (Except.error _) => (ClientOutcome.streamClosed, pd.2.1)
          | none => (ClientOutcome.streamClosed, pd.2.1)
      | none => (ClientOutcome.streamClosed, pd.2.1)
  | PollRes.error e => (ClientOutcome.connectError e, pd.2.1)
  | PollRes.notReady => (ClientOutcome.pending, pd.2.1)
  | PollRes.panicked m => (ClientOutcome.panicked m, pd.2.1)

/-- `proxy_client(new_service)`:
`Client::builder().set_host(true).build(Connector::new(new_service))`. -/
def proxy_client (n : NewService σ S E) : Client σ S E :=
  { set_host := true, connector := Connector.new n }

/-- `proxy_client_fn(handler)`:
`proxy_client(move || future::ok::<_, Never>(service_fn(handler)))`. -/
def proxy_client_fn (handler : Request → FutureResult Response E) :
    Client (FutureResult (Service E) Never) (Service E) Never :=
  proxy_client { sm := futureResultSM, init := fun _ => future.ok (service_fn handler) }

/-- `proxy_client_fn_ok(handler)`:
`proxy_client_fn(move |req| future::ok::<_, Never>(handler(req)))`. -/
def proxy_client_fn_ok (handler : Request → Response) :
    Client (FutureResult (Service Never) Never) (Service Never) Never :=
  proxy_client_fn (fun req => future.ok (handler req))

/-- A trivial factory whose service future never resolves, used as a concrete
instance in counterexamples and witnesses. -/
def unitNewService : NewService Unit Unit Unit :=
  { sm := ⟨fun s => (s, PollRes.notReady)⟩, init := fun _ => () }

/-- A concrete destination argument. -/
def exampleDest : Destination := ⟨⟨"example.com", ""⟩⟩

/-- A contract-violating inner service future that claims readiness on every
poll (the futures contract forbids polling a resolved future again, but
nothing in the connector enforces that). -/
def alwaysReadySM : FutureSM Unit Unit Unit :=
  ⟨fun s => (s, PollRes.ready ())⟩

/-- A connection-instantiation future wrapping `alwaysReadySM`. -/
def alwaysReadyCCF : ConnectorConnectFuture Unit Unit Unit :=
  { server := Http.new, sm := alwaysReadySM, service_state := () }

/-- A connection-instantiation future whose factory future resolves at once
with a (unit) service. -/
def readyCCF : ConnectorConnectFuture (FutureResult Unit String) Unit String :=
  { server := Http.new, sm := futureResultSM, service_state := future.ok () }

/-- A connection-instantiation future whose factory future fails at once with
the error string used by the crate's own factory-failure test. -/
def errCCF : ConnectorConnectFuture (FutureResult Unit String) Unit String :=
  { server := Http.new, sm := futureResultSM,
    service_state := future.err "correct error for test" }

/-- A synchronous handler whose response body depends on how many headers the
request it receives carries. -/
def hdrCountHandler : Request → Response := fun req => ⟨[req.headers.length]⟩

/-- A concrete request carrying no Host header. -/
def reqNoHost : Request := ⟨⟨"example.com", "foo=bar"⟩, [], [104, 105]⟩

/-- A synchronous handler that reports whether the request it receives
carries a Host header. -/
def hostProbe : Request → Response :=
  fun req => ⟨if hasHeader req.headers "Host" then [1] else [0]⟩

/- ------------------------------------------------------------------ -/
/- Helper lemmas shared by the claim theorems.                         -/
/- ------------------------------------------------------------------ -/

/-- A single poll either wires (creating one pair, spawning one task, on a
ready result) or leaves the world untouched; a pending poll in particular
changes nothing. -/
theorem poll_world_bound {σ S E : Type} (f : ConnectorConnectFuture σ S E) (w : World S) :
    (f.poll w).2.1.pairsCreated ≤ w.pairsCreated + 1 ∧
    (f.poll w).2.1.tasks.length ≤ w.tasks.length + 1 ∧
    ((f.poll w).2.2 = PollRes.notReady → (f.poll w).2.1 = w) := by
  rcases h : f.sm.step f.service_state with ⟨s', r⟩
  cases r <;>
    simp [ConnectorConnectFuture.poll, h, memsocket.unbounded, tokio.spawn]

/-- Unfolding of one request through `proxy_client_fn`: the factory future is
immediately ready, the wiring happens on the single poll, the freshly spawned
task is found on the peer socket, and the caller's outcome is determined by
the handler's response future applied to the Host-augmented request. -/
theorem request_through_proxy_client_fn
    {E : Type} (handler : Request → FutureResult Response E) (r : Request)
    (w : World (Service E)) :
    (Client.request 1 (proxy_client_fn handler) r w).1 =
      (match handler (autoHost r) with
       | some (Except.ok resp) => ClientOutcome.response resp
       | some (Except.error _) => ClientOutcome.streamClosed
       | none => ClientOutcome.streamClosed) := by
  simp only [Client.request, proxy_client_fn, proxy_client, Connector.new,
    Connector.connect, NewService.new_service, pollDriver,
    ConnectorConnectFuture.poll, futureResultSM, future.ok,
    memsocket.unbounded, tokio.spawn, service_fn, List.find?,
    beq_self_eq_true, if_true]
  rcases hh : handler (autoHost r) with _ | (e | resp) <;> rfl

/- ------------------------------------------------------------------ -/
/- Claim theorems.                                                     -/
/- ------------------------------------------------------------------ -/

/-- C1 (counterexample): the claim that `Connector::connect` performs no side
effects — in particular does not invoke the handler factory — before the
first poll is false: already at `connect` the factory's `new_service()` is
invoked synchronously, so the world after `connect` differs from the world
before it, with no poll having happened. -/
theorem connect_is_side_effect_free_cex :
    ((Connector.new unitNewService).connect exampleDest World.init).2 ≠
      (World.init : World Unit) := by
  decide

/-- C1 (amended): `Connector::connect` invokes the handler factory's
`new_service()` exactly once, synchronously, to obtain the instantiation
future, but performs none of the wiring side effects before the returned
future is polled: no duplex pair is created, no background task is spawned,
no socket endpoint is allocated, and the obtained service future is held
unpolled in its initial state. -/
theorem connect_invokes_factory_but_defers_wiring
    {σ S E : Type} (c : Connector σ S E) (d : Destination) (w : World S) :
    (c.connect d w).2.factoryCalls = w.factoryCalls + 1 ∧
    (c.connect d w).2.pairsCreated = w.pairsCreated ∧
    (c.connect d w).2.tasks = w.tasks ∧
    (c.connect d w).2.nextSocketId = w.nextSocketId ∧
    (c.connect d w).1.service_state = c.new_service.init () :=
  ⟨rfl, rfl, rfl, rfl, rfl⟩

/-- C2: if the factory's service future resolves with an error `e`, polling
`ConnectorConnectFuture` resolves with that same error `e` and leaves the
world completely unchanged: no duplex pair is created and no background
server task is spawned on that attempt. -/
theorem poll_propagates_factory_error
    {σ S E : Type} (f : ConnectorConnectFuture σ S E) (w : World S) (s' : σ) (e : E)
    (h : f.sm.step f.service_state = (s', PollRes.error e)) :
    (f.poll w).2.2 = PollRes.error e ∧ (f.poll w).2.1 = w := by
  simp [ConnectorConnectFuture.poll, h]

/-- C2 (witness): a connection-instantiation future whose factory future
fails with "correct error for test" polls to exactly that error with the
world untouched. -/
theorem poll_propagates_factory_error_witness :
    (errCCF.poll World.init).2.2 = PollRes.error "correct error for test" ∧
    (errCCF.poll World.init).2.1 = (World.init : World Unit) :=
  poll_propagates_factory_error errCCF World.init none "correct error for test" rfl

/-- C3: when the factory future resolves with a service, the poll creates
exactly one fresh duplex pair, spawns exactly one background server task
holding the server-side half and that service, and resolves with the
client-side half together with `Connected` metadata whose proxy flag is
true; when the factory future resolves with an error, zero pairs are
created and zero tasks are spawned. -/
theorem poll_wires_on_success_only
    {σ S E : Type} (f : ConnectorConnectFuture σ S E) (w : World S) :
    (∀ s' svc, f.sm.step f.service_state = (s', PollRes.ready svc) →
      (f.poll w).2.2 = PollRes.ready (w.nextSocketId, Connected.new.proxy true) ∧
      (f.poll w).2.1.pairsCreated = w.pairsCreated + 1 ∧
      (f.poll w).2.1.tasks = ⟨w.nextSocketId + 1, svc⟩ :: w.tasks ∧
      (f.poll w).2.1.nextSocketId = w.nextSocketId + 2 ∧
      (f.poll w).2.1.factoryCalls = w.factoryCalls) ∧
    (∀ s' e, f.sm.step f.service_state = (s', PollRes.error e) →
      (f.poll w).2.1.pairsCreated = w.pairsCreated ∧
      (f.poll w).2.1.tasks = w.tasks) := by
  constructor
  · intro s' svc h
    simp [ConnectorConnectFuture.poll, h, memsocket.unbounded, tokio.spawn]
  · intro s' e h
    simp [ConnectorConnectFuture.poll, h]

/-- C3 (witness): concrete instances exercising both branches: a ready
factory future wires one pair and resolves with the client half and the
proxy flag, and a failing factory future creates no pair. -/
theorem poll_wires_on_success_only_witness :
    ((readyCCF.poll World.init).2.2 =
        PollRes.ready ((World.init : World Unit).nextSocketId, Connected.new.proxy true) ∧
      (readyCCF.poll World.init).2.1.pairsCreated =
        (World.init : World Unit).pairsCreated + 1) ∧
    (errCCF.poll World.init).2.1.pairsCreated = (World.init : World Unit).pairsCreated :=
  ⟨⟨((poll_wires_on_success_only readyCCF World.init).1 none () rfl).1,
    ((poll_wires_on_success_only readyCCF World.init).1 none () rfl).2.1⟩,
   ((poll_wires_on_success_only errCCF World.init).2 none "correct error for test" rfl).1⟩

/-- C4 (counterexample): the claim that the wiring step happens at most once
over any sequence of polls is false: the future keeps no completion state,
so polling it again after it has resolved (in violation of the futures
contract) re-enters the wiring step — here the first poll resolves ready,
and a second poll creates a second duplex pair and spawns a second task. -/
theorem wiring_repeats_on_repoll_after_resolution_cex :
    (alwaysReadyCCF.poll World.init).2.2 =
      PollRes.ready (0, Connected.new.proxy true) ∧
    ((alwaysReadyCCF.poll World.init).1.poll
        (alwaysReadyCCF.poll World.init).2.1).2.1.pairsCreated = 2 ∧
    ((alwaysReadyCCF.poll World.init).1.poll
        (alwaysReadyCCF.poll World.init).2.1).2.1.tasks.length = 2 := by
  decide

/-- C4 (amended): over any poll sequence that respects the futures contract
— the future is polled repeatedly while pending and never again once it has
resolved, which is how the client stack drives it — the wiring step happens
at most once: driving the future with any amount of fuel creates at most one
duplex pair and spawns at most one background task. -/
theorem wiring_at_most_once_per_contractual_drive
    {σ S E : Type} (fuel : Nat) (f : ConnectorConnectFuture σ S E) (w : World S) :
    (pollDriver fuel f w).2.1.pairsCreated ≤ w.pairsCreated + 1 ∧
    (pollDriver fuel f w).2.1.tasks.length ≤ w.tasks.length + 1 := by
  induction fuel generalizing f w with
  | zero => exact ⟨Nat.le_succ _, Nat.le_succ _⟩
  | succ n ih =>
    have hb := poll_world_bound f w
    rcases hp : f.poll w with ⟨f', w', r⟩
    rw [hp] at hb
    cases r with
    | notReady =>
        have hw : w' = w := hb.2.2 rfl
        simpa [pollDriver, hp, hw] using ih f' w
    | ready a => simpa [pollDriver, hp] using ⟨hb.1, hb.2.1⟩
    | error e => simpa [pollDriver, hp] using ⟨hb.1, hb.2.1⟩
    | panicked m => simpa [pollDriver, hp] using ⟨hb.1, hb.2.1⟩

/-- C5: any error surfaced by the serve loop on an already-wired connection
aborts the background server task with a panic carrying that error as its
diagnostic — the task never finishes as if it had recovered — while a clean
peer close finishes the task; and a serving-side error is never translated
into an instantiation error for the caller: a client whose handler's
response future always fails observes an unexpected stream termination, not
a connect error. -/
theorem serving_error_aborts_task_only :
    (∀ (ε : Type) (e : ε),
      serverTaskOutcome (ServeOutcome.failed e) = TaskOutcome.panicked e) ∧
    serverTaskOutcome (ServeOutcome.done (ε := Unit)) = TaskOutcome.finished ∧
    (∀ (e : String) (r : Request) (w : World (Service String)),
      (Client.request 1 (proxy_client_fn (fun _ => future.err e)) r w).1 =
        ClientOutcome.streamClosed) := by
  refine ⟨fun ε e => rfl, rfl, fun e r w => ?_⟩
  rw [request_through_proxy_client_fn]
  rfl

/-- C6 (counterexample): the claim that a client built with
`proxy_client_fn_ok h` returns, for every request R, a response whose body
bytes equal `h(R)`'s body bytes exactly is false: the client is built with
`set_host(true)`, so for a request without a Host header the handler
receives the request with a Host header inserted — a handler whose body
depends on the header list therefore answers differently from `h(R)`. -/
theorem sync_handler_body_equality_cex :
    (Client.request 1 (proxy_client_fn_ok hdrCountHandler) reqNoHost World.init).1 ≠
      ClientOutcome.response (hdrCountHandler reqNoHost) := by
  decide

/-- C6 (amended): a client built with `proxy_client_fn_ok h` returns, for
every request R, a response whose body bytes equal the body bytes of `h`
applied to R after the client stack's automatic Host insertion (a Host
header derived from the URI is added when R lacks one); in particular, for
requests already carrying a Host header, or handlers whose response does not
depend on the Host header, this is exactly `h(R)`'s body. -/
theorem sync_handler_body_after_host_insertion
    (h : Request → Response) (r : Request) (w : World (Service Never)) :
    (Client.request 1 (proxy_client_fn_ok h) r w).1 =
      ClientOutcome.response (h (autoHost r)) := by
  rw [proxy_client_fn_ok, request_through_proxy_client_fn]
  rfl

/-- C7: `Connector::connect` accepts and completely ignores its destination
argument: connecting with any two destinations from the same connector and
world produces identical futures and identical worlds — there is exactly one
virtual endpoint. -/
theorem connect_ignores_destination
    {σ S E : Type} (c : Connector σ S E) (d1 d2 : Destination) (w : World S) :
    c.connect d1 w = c.connect d2 w := rfl

/-- C8: the sync-handler entry point `proxy_client_fn_ok h` is (definitionally)
equal to the async-handler entry point applied to the wrapper that returns
the handler's result in an always-succeeding immediately-ready future,
`proxy_client_fn (fun req => future.ok (h req))`. -/
theorem sync_entry_is_async_entry_with_ok_wrapper (h : Request → Response) :
    proxy_client_fn_ok h = proxy_client_fn (fun req => future.ok (h req)) := rfl

/-- C9: every client produced by any of the three entry points carries
`set_host = true` (from `Client::builder().set_host(true)`); consequently
the client stack inserts a Host header derived from the request URI's host
into every outgoing request lacking one, which the handler observes: a
probe handler reports a Host header present on every request, whatever the
original request carried. -/
theorem all_entry_points_enable_set_host :
    (∀ (σ S E : Type) (n : NewService σ S E), (proxy_client n).set_host = true) ∧
    (∀ (E : Type) (handler : Request → FutureResult Response E),
      (proxy_client_fn handler).set_host = true) ∧
    (∀ handler : Request → Response, (proxy_client_fn_ok handler).set_host = true) ∧
    (∀ r : Request, (autoHost r).headers =
      if hasHeader r.headers "Host" then r.headers
      else ("Host", r.uri.host) :: r.headers) ∧
    (∀ (r : Request) (w : World (Service Never)),
      (Client.request 1 (proxy_client_fn_ok hostProbe) r w).1 =
        ClientOutcome.response ⟨[1]⟩) := by
  refine ⟨fun _ _ _ _ => rfl, fun _ _ => rfl, fun _ => rfl, fun r => ?_, fun r w => ?_⟩
  · unfold autoHost
    split <;> rfl
  · rw [proxy_client_fn_ok, request_through_proxy_client_fn]
    have hh : hasHeader (autoHost r).headers "Host" = true := by
      unfold autoHost
      split
      · assumption
      · simp [hasHeader]
    simp [future.ok, hostProbe, hh]

/-- C10: the error type `Never` is uninhabited — so its `Display::fmt` and
`Error::description` bodies (declared unreachable) can never execute — and
every connection attempt made through `proxy_client_fn` (hence also through
`proxy_client_fn_ok`) resolves successfully on its first poll: the
instantiation-error branch is unreachable, such attempts never fail at
handler construction. -/
theorem never_uninhabited_and_fn_attempts_never_fail :
    (Never → False) ∧
    (∀ (E : Type) (handler : Request → FutureResult Response E)
       (d : Destination) (w : World (Service E)),
      (((proxy_client_fn handler).connector.connect d w).1.poll
          ((proxy_client_fn handler).connector.connect d w).2).2.2 =
        PollRes.ready (w.nextSocketId, Connected.new.proxy true)) :=
  ⟨fun n => n.elim, fun _ _ _ _ => rfl⟩

end HyperStub
